import Mathlib

/-!
Shallow embedding of the MCP-VIRTUAL-API repository's response generator
(`generators/ollamaGenerator.js`) and its schema-addition route
(`server.js`, POST /schemas), with proofs about the claims of the spec.

JavaScript values reachable in this code are modelled by `Json` (JSON
values plus `undefined` for JavaScript's `undefined`, which arises from
property access on objects lacking the key).  JSON numbers are modelled
exactly as a decimal mantissa times a power of ten; every number
appearing in this development is an integer with exponent 0, written
`Json.num m 0`.
-/

inductive Json where
  | null
  | undefined
  | bool (b : Bool)
  | num (mantissa : Int) (exp10 : Int)
  | str (s : String)
  | arr (elems : List Json)
  | obj (fields : List (String × Json))

namespace Json

/-- JavaScript truthiness of a value. -/
def jsTruthy : Json → Bool
  | .null => false
  | .undefined => false
  | .bool b => b
  | .num m _ => m != 0
  | .str s => s != ""
  | .arr _ => true
  | .obj _ => true

/-- JavaScript `typeof`. -/
def jsTypeof : Json → String
  | .null => "object"
  | .undefined => "undefined"
  | .bool _ => "boolean"
  | .num _ _ => "number"
  | .str _ => "string"
  | .arr _ => "object"
  | .obj _ => "object"

/-- Non-throwing property access `v[k]`: `undefined` when the key is absent or
the value is not an object.  (Call sites where the receiver can be
`null`/`undefined` — where JavaScript throws — use `jsGetProp`.) -/
def getPropD (v : Json) (k : String) : Json :=
  match v with
  | .obj fields => (fields.lookup k).getD .undefined
  | _ => .undefined

/-- Property access that throws (TypeError) on `null`/`undefined`
receivers, as JavaScript does. -/
def jsGetProp (v : Json) (k : String) : Except Unit Json :=
  match v with
  | .null => .error ()
  | .undefined => .error ()
  | _ => .ok (getPropD v k)

/-- JavaScript `v.length` for the values that can reach the `.length`
check in the fallback loop: arrays and strings have a length, objects may
carry a `length` property, everything else yields `undefined`. -/
def jsLength : Json → Json
  | .arr xs => .num xs.length 0
  | .str s => .num s.length 0
  | .obj fields => (fields.lookup "length").getD .undefined
  | _ => .undefined

/-- JavaScript `v[0]`. -/
def jsIndex0 : Json → Json
  | .arr [] => .undefined
  | .arr (x :: _) => x
  | .str s => if s = "" then .undefined else .str (String.singleton (s.toList.headD ' '))
  | .obj fields => (fields.lookup "0").getD .undefined
  | _ => .undefined

/-- `Object.entries(v)`: fields of an object, indexed characters of a
string, indexed elements of an array, empty for other primitives.  The
source only applies it to truthy values, so the throwing cases
(`null`/`undefined`) are unreachable. -/
def jsEntries : Json → List (String × Json)
  | .obj fields => fields
  | .str s => s.toList.enum.map (fun p => (toString p.1, Json.str (String.singleton p.2)))
  | .arr xs => xs.enum.map (fun p => (toString p.1, p.2))
  | _ => []

/-- Strict equality `v === "lit"` against a string literal. -/
def isStrEq (v : Json) (lit : String) : Bool :=
  match v with
  | .str t => t = lit
  | _ => false

/-- Property assignment `o[k] = v` on a plain object: overwrite in place
if present, else append (JavaScript key-insertion order). -/
def objSet (fields : List (String × Json)) (k : String) (v : Json) : List (String × Json) :=
  if fields.any (fun p => p.1 = k) then
    fields.map (fun p => if p.1 = k then (k, v) else p)
  else
    fields ++ [(k, v)]

end Json

/-!
A model of JavaScript's `JSON.parse` (ECMA-404 grammar): whitespace is
space/tab/newline/carriage-return, numbers follow the strict JSON number
grammar and are read as exact rationals, strings support the standard
escapes, and no non-whitespace may follow the parsed value.
-/

def isWs (c : Char) : Bool := c = ' ' || c = '\t' || c = '\n' || c = '\r'

def skipWs (l : List Char) : List Char := l.dropWhile isWs

def isDigit (c : Char) : Bool := '0' ≤ c && c ≤ '9'

def digitsToNat (ds : List Char) : Nat :=
  ds.foldl (fun acc c => 10 * acc + (c.toNat - '0'.toNat)) 0

/-- Value of one hexadecimal digit (0-9, a-f, A-F), by code point. -/
def hexVal (c : Char) : Option Nat :=
  let n := c.toNat
  if 48 ≤ n ∧ n ≤ 57 then some (n - 48)
  else if 97 ≤ n ∧ n ≤ 102 then some (n - 87)
  else if 65 ≤ n ∧ n ≤ 70 then some (n - 55)
  else none

/-- Exponent part after the `e`/`E` marker: optional sign, then digits. -/
def parseExpTail (l : List Char) : Option (Int × List Char) :=
  let signed : Bool × List Char :=
    match l with
    | '+' :: rest => (false, rest)
    | '-' :: rest => (true, rest)
    | _ => (false, l)
  let ds := signed.2.takeWhile isDigit
  if ds = [] then none
  else
    let n : Int := Int.ofNat (digitsToNat ds)
    some (if signed.1 then -n else n, signed.2.dropWhile isDigit)

/-- JSON number at the head of the input: `-?(0|[1-9][0-9]*)(\.[0-9]+)?([eE][+-]?[0-9]+)?`. -/
def parseNumber (l : List Char) : Option (Json × List Char) :=
  let signed : Bool × List Char :=
    match l with
    | '-' :: rest => (true, rest)
    | _ => (false, l)
  let intDs := signed.2.takeWhile isDigit
  let l2 := signed.2.dropWhile isDigit
  if intDs = [] then none
  else if intDs.length > 1 && intDs.headD '0' = '0' then none
  else
    let fracRes : Option (List Char × List Char) :=
      match l2 with
      | '.' :: rest =>
          let fds := rest.takeWhile isDigit
          if fds = [] then none else some (fds, rest.dropWhile isDigit)
      | _ => some ([], l2)
    match fracRes with
    | none => none
    | some (fracDs, l3) =>
      let expRes : Option (Int × List Char) :=
        match l3 with
        | 'e' :: rest => parseExpTail rest
        | 'E' :: rest => parseExpTail rest
        | _ => some (0, l3)
      match expRes with
      | none => none
      | some (e, l4) =>
        let mag : Int := Int.ofNat (digitsToNat (intDs ++ fracDs))
        let mantissa : Int := if signed.1 then -mag else mag
        some (Json.num mantissa (e - fracDs.length), l4)

/-- Body of a JSON string after the opening quote, accumulating decoded
characters in reverse. -/
def parseStringBody (fuel : Nat) (l : List Char) (acc : List Char) : Option (String × List Char) :=
  match fuel with
  | 0 => none
  | fuel + 1 =>
    match l with
    | [] => none
    | '"' :: rest => some (String.mk acc.reverse, rest)
    | '\\' :: esc =>
        match esc with
        | '"' :: rest => parseStringBody fuel rest ('"' :: acc)
        | '\\' :: rest => parseStringBody fuel rest ('\\' :: acc)
        | '/' :: rest => parseStringBody fuel rest ('/' :: acc)
        | 'b' :: rest => parseStringBody fuel rest (Char.ofNat 8 :: acc)
        | 'f' :: rest => parseStringBody fuel rest (Char.ofNat 12 :: acc)
        | 'n' :: rest => parseStringBody fuel rest ('\n' :: acc)
        | 'r' :: rest => parseStringBody fuel rest ('\r' :: acc)
        | 't' :: rest => parseStringBody fuel rest ('\t' :: acc)
        | 'u' :: h1 :: h2 :: h3 :: h4 :: rest =>
            match hexVal h1, hexVal h2, hexVal h3, hexVal h4 with
            | some a, some b, some c, some d =>
                parseStringBody fuel rest (Char.ofNat (((a * 16 + b) * 16 + c) * 16 + d) :: acc)
            | _, _, _, _ => none
        | _ => none
    | c :: rest => if c.toNat < 32 then none else parseStringBody fuel rest (c :: acc)

mutual

def parseValue (fuel : Nat) (l : List Char) : Option (Json × List Char) :=
  match fuel with
  | 0 => none
  | fuel + 1 =>
    match skipWs l with
    | 'n' :: 'u' :: 'l' :: 'l' :: rest => some (Json.null, rest)
    | 't' :: 'r' :: 'u' :: 'e' :: rest => some (Json.bool true, rest)
    | 'f' :: 'a' :: 'l' :: 's' :: 'e' :: rest => some (Json.bool false, rest)
    | '"' :: rest => (parseStringBody (rest.length + 1) rest []).map (fun p => (Json.str p.1, p.2))
    | '\x7b' :: rest =>
        (match skipWs rest with
         | '\x7d' :: rest2 => some (Json.obj [], rest2)
         | rest2 => parseMembers fuel rest2 [])
    | '[' :: rest =>
        (match skipWs rest with
         | ']' :: rest2 => some (Json.arr [], rest2)
         | rest2 => parseElements fuel rest2 [])
    | rest => parseNumber rest

def parseMembers (fuel : Nat) (l : List Char) (acc : List (String × Json)) :
    Option (Json × List Char) :=
  match fuel with
  | 0 => none
  | fuel + 1 =>
    match skipWs l with
    | '"' :: rest =>
      (match parseStringBody (rest.length + 1) rest [] with
       | none => none
       | some (k, rest2) =>
         match skipWs rest2 with
         | ':' :: rest3 =>
           (match parseValue fuel rest3 with
            | none => none
            | some (v, rest4) =>
              match skipWs rest4 with
              | ',' :: rest5 => parseMembers fuel rest5 (Json.objSet acc k v)
              | '\x7d' :: rest5 => some (Json.obj (Json.objSet acc k v), rest5)
              | _ => none)
         | _ => none)
    | _ => none

def parseElements (fuel : Nat) (l : List Char) (acc : List Json) : Option (Json × List Char) :=
  match fuel with
  | 0 => none
  | fuel + 1 =>
    match parseValue fuel l with
    | none => none
    | some (v, rest) =>
      match skipWs rest with
      | ',' :: rest2 => parseElements fuel rest2 (acc ++ [v])
      | ']' :: rest2 => some (Json.arr (acc ++ [v]), rest2)
      | _ => none

end

/-- `JSON.parse` on a character list: parse one value, then only
whitespace may remain. -/
def parseJsonList (l : List Char) : Option Json :=
  match parseValue (2 * l.length + 2) l with
  | some (v, rest) => if skipWs rest = [] then some v else none
  | none => none

/-- `JSON.parse` on a string. -/
def parseJson (s : String) : Option Json := parseJsonList s.toList

example : parseJson "\x7b\"x\":1\x7d" = some (Json.obj [("x", Json.num 1 0)]) := by rfl

example : parseJson "[1,2,3]" = some (Json.arr [Json.num 1 0, Json.num 2 0, Json.num 3 0]) := by
  rfl

example : parseJson "[\x7b\"a\":1\x7d]" = some (Json.arr [Json.obj [("a", Json.num 1 0)]]) := by
  rfl

example : parseJson "\x7b\"a\":1\x7d, \x7b\"b\":2\x7d" = none := by rfl

example : parseJson " \x7b \"a\" : [true, null, -2.5e1, \"hi\"] \x7d " =
    some (Json.obj
      [("a", Json.arr [Json.bool true, Json.null, Json.num (-25) 0, Json.str "hi"])]) := by
  rfl

/-!
The response generator `generate(schema, input)` of
`generators/ollamaGenerator.js`.

The LLM service is an external black box: its behavior per call is a
parameter `LLMOutcome` — either the request throws (network failure,
non-2xx status), or it resolves with some JSON body `data`
(`response.data` in the source).  The prompt built from
`schema.context`, `schema.responseSchema` and `input` only feeds that
external call, so it does not appear in the model; the outcome parameter
quantifies over every possible service response to it.
-/

/-- Outcome of the `axios.post` call to the LLM service. -/
inductive LLMOutcome where
  | failure
  | success (data : Json)

/-- `String.prototype.trim()` (restricted to the ASCII whitespace the
inputs here contain). -/
def jsTrim (l : List Char) : List Char :=
  ((l.dropWhile isWs).reverse.dropWhile isWs).reverse

/-- Index of the first occurrence of `c`. -/
def firstIdxOf (c : Char) (l : List Char) : Option Nat :=
  l.findIdx? (fun x => x = c)

/-- Index of the last occurrence of `c`. -/
def lastIdxOf (c : Char) (l : List Char) : Option Nat :=
  (l.reverse.findIdx? (fun x => x = c)).map (fun k => l.length - 1 - k)

/-- Leftmost-greedy regex match of `o[\s\S]*c` (e.g. `/\{[\s\S]*\}/`):
the substring from the first `o` to the last `c`, provided some `c`
occurs strictly after the first `o`.  (If the first `o` has a `c` after
it the leftmost match starts there and greedily extends to the last `c`;
if not, no later `o` does either, since the last `c` precedes every
later `o`.) -/
def spanMatch (o c : Char) (l : List Char) : Option (List Char) :=
  match firstIdxOf o l, lastIdxOf c l with
  | some i, some j => if i < j then some ((l.drop i).take (j - i + 1)) else none
  | _, _ => none

/-- The four JSON-extraction strategies of `generate`, applied in order
to the trimmed LLM text:
object-shaped regex match, array-shaped regex match, text already
starting with `\x7b` or `[`, and first line starting (after trim) with
`\x7b` or `[` together with all following lines. -/
def extractCandidate (content : List Char) : Option (List Char) :=
  match spanMatch '\x7b' '\x7d' content with
  | some m => some m
  | none =>
    match spanMatch '[' ']' content with
    | some m => some m
    | none =>
      if content.head? = some '\x7b' || content.head? = some '[' then
        some content
      else
        let lines := content.splitOn '\n'
        match lines.findIdx?
            (fun ln =>
              (jsTrim ln).head? = some '\x7b' || (jsTrim ln).head? = some '[') with
        | some i => some (List.intercalate ['\n'] (lines.drop i))
        | none => none

/-- The body of the `try` block of `generate`: read
`response.data.response`, trim it, extract a JSON-shaped candidate and
parse it.  `.error ()` collects every thrown exception: the axios
failure, the TypeError from `.trim()` when the `response` field is
absent or not a string, the explicit `No valid JSON found in response`
throw, and the `JSON.parse` SyntaxError. -/
def tryGenerate (llm : LLMOutcome) : Except Unit Json :=
  match llm with
  | .failure => .error ()
  | .success data =>
    match Json.jsGetProp data "response" with
    | .error _ => .error ()
    | .ok (Json.str s) =>
      let content := jsTrim s.toList
      match extractCandidate content with
      | some cand =>
        match parseJsonList cand with
        | some v => .ok v
        | none => .error ()
      | none => .error ()
    | .ok _ => .error ()

/-- One iteration of the fallback `forEach`: resolve the field's type
and enum from its descriptor and produce the placeholder value.
`prop.type` throws (TypeError) when the descriptor is `null` — JavaScript
classifies `null` as `typeof === 'object'` — or `undefined`. -/
def fallbackField (key : String) (prop : Json) : Except Unit Json :=
  match (if Json.jsTypeof prop = "string" then Except.ok prop else Json.jsGetProp prop "type") with
  | .error e => .error e
  | .ok type =>
    let enumVals :=
      if Json.jsTypeof prop = "object" && Json.jsTruthy (Json.getPropD prop "enum") then
        Json.getPropD prop "enum"
      else
        Json.null
    if Json.jsTruthy enumVals && Json.jsTruthy (Json.jsLength enumVals) then
      .ok (Json.jsIndex0 enumVals)
    else if Json.isStrEq type "string" then
      .ok (Json.str ("sample_" ++ key))
    else if Json.isStrEq type "number" then
      .ok (Json.num 123 0)
    else if Json.isStrEq type "boolean" then
      .ok (Json.bool true)
    else
      .ok (Json.str ("sample_" ++ key))

/-- The fallback `forEach` over the schema's property entries, mutating
the initially empty `fallback` object left to right. -/
def buildFallback (entries : List (String × Json)) (acc : List (String × Json)) :
    Except Unit (List (String × Json)) :=
  match entries with
  | [] => .ok acc
  | (k, p) :: rest =>
    match fallbackField k p with
    | .error e => .error e
    | .ok v => buildFallback rest (Json.objSet acc k v)

/-- The `catch` block of `generate`: fallback response derived from
`schema.responseSchema`, or the fixed error object when that is absent
(or otherwise falsy). -/
def fallbackResponse (rs : Json) : Except Unit Json :=
  if Json.jsTruthy rs then
    let propsVal := Json.getPropD rs "properties"
    let propEntries :=
      if Json.jsTruthy propsVal then Json.jsEntries propsVal else Json.jsEntries rs
    match buildFallback propEntries [] with
    | .error e => .error e
    | .ok fields => .ok (Json.obj fields)
  else
    .ok (Json.obj [("error", Json.str "Failed to generate mock response from LLM.")])

/-- An endpoint schema as consumed by `generate`; fields that may be
absent hold `Json.undefined` in that case. -/
structure EndpointSchema where
  endpoint : Json
  method : Json
  context : Json
  responseSchema : Json

/-- `generate(schema, input)` under LLM outcome `llm`: the `try` body,
with every exception routed to the fallback path.  A `.error` result
models an exception thrown out of the `catch` block itself (reachable
only for descriptors outside the spec's data model, e.g. a `null`
descriptor). `input` only feeds the prompt, hence the external outcome
parameter. -/
def generate (schema : EndpointSchema) (input : Json) (llm : LLMOutcome) : Except Unit Json :=
  match tryGenerate llm with
  | .ok v => .ok v
  | .error _ => fallbackResponse schema.responseSchema

example :
    generate ⟨Json.str "/e", Json.str "GET", Json.undefined, Json.obj [("x", Json.str "number")]⟩
      (Json.obj []) (.success (Json.obj [("response", Json.str "pre \x7b\"x\": 7\x7d post")])) =
    .ok (Json.obj [("x", Json.num 7 0)]) := by rfl

example :
    generate ⟨Json.str "/e", Json.str "GET", Json.undefined, Json.obj [("x", Json.str "number")]⟩
      (Json.obj []) .failure = .ok (Json.obj [("x", Json.num 123 0)]) := by rfl

/-!
The POST /schemas route of `server.js`.

Server state: the files of the schemas directory, the in-memory
`schemas` map (keyed `"<method> <route>"`), and the routes attached to
the Express app.  `Date.now()` is the `now` parameter.
-/

structure ServerState where
  files : List (String × Json)
  schemasMap : List (String × Json)
  routes : List (String × String)

/-- HTTP verbs for which `app[method]` is a route-registration function;
for any other method string the `app[method](route, ...)` call throws a
TypeError. -/
def knownVerbs : List String :=
  ["get", "post", "put", "delete", "patch", "head", "options", "all"]

/-- A `\w` character: ASCII letter, digit or underscore. -/
def isWordChar (c : Char) : Bool := c.isAlphanum || c = '_'

/-- `replace(/\W+/g, '_')`: every maximal run of non-word characters
becomes a single underscore. -/
def collapseNonWord : Bool → List Char → List Char
  | _, [] => []
  | inRun, c :: rest =>
    if isWordChar c then c :: collapseNonWord false rest
    else if inRun then collapseNonWord true rest
    else '_' :: collapseNonWord true rest

/-- `replace(/^_+|_+$/g, '')`: strip leading and trailing underscores. -/
def stripUnderscores (l : List Char) : List Char :=
  ((l.dropWhile (fun c => c = '_')).reverse.dropWhile (fun c => c = '_')).reverse

/-- `schema.endpoint.replace(/\W+/g,'_').replace(/^_+|_+$/g,'') || 'schema'`. -/
def safeNameOf (ep : String) : String :=
  let collapsed := stripUnderscores (collapseNonWord false ep.toList)
  if collapsed = [] then "schema" else String.mk collapsed

/-- `registerEndpoint(schema)`: skip silently unless `endpoint` and
`method` are strings; store the schema in the `schemas` map; attach the
Express handler (throwing when `app[method]` is not a function — note the
map was already mutated at that point). -/
def registerEndpoint (schema : Json) (st : ServerState) : Except Unit Unit × ServerState :=
  match Json.getPropD schema "endpoint", Json.getPropD schema "method" with
  | Json.str route, Json.str method =>
    let m := method.toLower
    let st1 : ServerState :=
      ⟨st.files, Json.objSet st.schemasMap (m ++ " " ++ route) schema, st.routes⟩
    if m ∈ knownVerbs then
      (.ok (), ⟨st1.files, st1.schemasMap, st1.routes ++ [(m, route)]⟩)
    else
      (.error (), st1)
  | _, _ => (.ok (), st)

/-- The POST /schemas handler: validate, persist to a
`<now>_<safeName>.json` file, register the endpoint, and answer; any
exception in the `try` block yields a 500.  The result is the pair
(status code, response body) together with the new server state. -/
def postSchemas (body : Json) (now : Nat) (st : ServerState) : (Nat × Json) × ServerState :=
  if !(Json.jsTruthy body) || !(Json.jsTruthy (Json.getPropD body "endpoint")) ||
      !(Json.jsTruthy (Json.getPropD body "method")) ||
      !(Json.jsTruthy (Json.getPropD body "responseSchema")) then
    ((400, Json.obj [("error", Json.str "Invalid schema format")]), st)
  else
    match Json.getPropD body "endpoint" with
    | Json.str ep =>
      let fname := toString now ++ "_" ++ safeNameOf ep ++ ".json"
      let st1 : ServerState := ⟨st.files ++ [(fname, body)], st.schemasMap, st.routes⟩
      (match registerEndpoint body st1 with
       | (.ok _, st2) =>
         ((200, Json.obj [("message", Json.str "Schema added successfully"),
            ("endpoint", Json.str ep)]), st2)
       | (.error _, st2) =>
         ((500, Json.obj [("error", Json.str "Failed to save/register schema")]), st2))
    | _ =>
      -- a truthy non-string endpoint reaches `schema.endpoint.replace`,
      -- which throws before anything is written
      ((500, Json.obj [("error", Json.str "Failed to save/register schema")]), st)

/-!
The spec's data model for `responseSchema` (spec.md §3), used as the
domain of the universally quantified claims about `generate`.
-/

/-- A type descriptor per the data model: a bare type name string, or an
object with optional `type` (a string) and `enum` (an ordered sequence). -/
def WFDescriptor (p : Json) : Prop :=
  (∃ s, p = Json.str s) ∨
  (∃ ds, p = Json.obj ds ∧
    ∀ q ∈ ds, (q.1 = "type" ∧ ∃ s, q.2 = Json.str s) ∨ (q.1 = "enum" ∧ ∃ xs, q.2 = Json.arr xs))

/-- A `responseSchema` per the data model: absent, a flat mapping of
field names to type descriptors, or an object whose `properties` field
is such a mapping. -/
def WFResponseSchema (rs : Json) : Prop :=
  rs = Json.undefined ∨
  (∃ fs, rs = Json.obj fs ∧
    ((∀ q ∈ fs, WFDescriptor q.2) ∨
     (∃ props, Json.getPropD rs "properties" = Json.obj props ∧ ∀ q ∈ props, WFDescriptor q.2)))

/-- Concrete schemas used by the witnesses and counterexamples. -/
def numSchema : EndpointSchema :=
  ⟨Json.str "/data", Json.str "GET", Json.undefined, Json.obj [("x", Json.str "number")]⟩

def schemaC4 : EndpointSchema :=
  ⟨Json.str "/data", Json.str "GET", Json.undefined,
    Json.obj [("a", Json.str "string"), ("b", Json.str "number"),
      ("c", Json.obj [("enum", Json.arr [Json.str "X", Json.str "Y"])])]⟩

def schemaProps : EndpointSchema :=
  ⟨Json.str "/data", Json.str "GET", Json.undefined,
    Json.obj [("properties", Json.obj [("id", Json.str "number")])]⟩

def schemaPropsDegenerate : EndpointSchema :=
  ⟨Json.str "/data", Json.str "GET", Json.undefined,
    Json.obj [("properties", Json.obj [("properties", Json.str "string")])]⟩

def schemaNoResponse : EndpointSchema :=
  ⟨Json.str "/data", Json.str "GET", Json.undefined, Json.undefined⟩

def arraySchema : EndpointSchema :=
  ⟨Json.str "/list", Json.str "GET", Json.undefined,
    Json.arr [Json.obj [("a", Json.str "number")]]⟩

/-!
Helper lemmas.
-/

theorem firstIdxOf_cons_self (c : Char) (l : List Char) : firstIdxOf c (c :: l) = some 0 := by
  simp [firstIdxOf, List.findIdx?_cons]

theorem lastIdxOf_concat_self (c : Char) (l : List Char) :
    lastIdxOf c (l ++ [c]) = some l.length := by
  simp [lastIdxOf, List.findIdx?_cons]

/-- The greedy regex match over a string that is exactly `o …mid… c`
recovers the whole string. -/
theorem spanMatch_full (o c : Char) (mid : List Char) :
    spanMatch o c (o :: (mid ++ [c])) = some (o :: (mid ++ [c])) := by
  have h1 : firstIdxOf o (o :: (mid ++ [c])) = some 0 := firstIdxOf_cons_self o (mid ++ [c])
  have h2 : lastIdxOf c (o :: (mid ++ [c])) = some (mid.length + 1) := by
    simpa using lastIdxOf_concat_self c (o :: mid)
  unfold spanMatch
  rw [h1, h2]
  simp only [Nat.sub_zero, List.drop_zero]
  rw [if_pos (by omega)]
  rw [show mid.length + 1 + 1 = (o :: (mid ++ [c])).length by simp]
  rw [List.take_length]

/-- No match when the opening character does not occur. -/
theorem spanMatch_none_of_not_mem (o c : Char) (l : List Char) (h : o ∉ l) :
    spanMatch o c l = none := by
  have h1 : firstIdxOf o l = none := by
    rw [firstIdxOf, List.findIdx?_eq_none_iff]
    intro x hx
    exact decide_eq_false (fun he => h (he ▸ hx))
  unfold spanMatch
  rw [h1]

theorem lookup_mem {k : String} {v : Json} :
    ∀ {fs : List (String × Json)}, fs.lookup k = some v → (k, v) ∈ fs := by
  intro fs
  induction fs with
  | nil => intro h; exact Option.noConfusion h
  | cons q rest ih =>
    obtain ⟨a, b⟩ := q
    intro h
    by_cases hk : k = a
    · subst hk
      simp only [List.lookup, beq_self_eq_true, Option.some.injEq] at h
      subst h
      exact List.mem_cons_self _ _
    · have hbeq : (k == a) = false := by simp [hk]
      simp only [List.lookup, hbeq] at h
      exact List.mem_cons_of_mem _ (ih h)

/-- The only exception in the fallback loop body is the `prop.type`
TypeError on a `null` (or `undefined`) descriptor. -/
theorem fallbackField_ok (k : String) (p : Json) (hn : p ≠ Json.null) (hu : p ≠ Json.undefined) :
    ∃ v, fallbackField k p = .ok v := by
  cases p with
  | null => exact absurd rfl hn
  | undefined => exact absurd rfl hu
  | bool b => exact ⟨_, rfl⟩
  | num m e => exact ⟨_, rfl⟩
  | str s =>
    simp [fallbackField, Json.jsTypeof, Json.getPropD, Json.jsTruthy]
    repeat' split
    all_goals exact ⟨_, rfl⟩
  | arr xs => exact ⟨_, rfl⟩
  | obj fs =>
    simp [fallbackField, Json.jsTypeof, Json.jsGetProp]
    repeat' split
    all_goals exact ⟨_, rfl⟩

theorem buildFallback_ok (entries : List (String × Json))
    (hsafe : ∀ q ∈ entries, q.2 ≠ Json.null ∧ q.2 ≠ Json.undefined) :
    ∀ acc, ∃ out, buildFallback entries acc = .ok out := by
  induction entries with
  | nil => exact fun acc => ⟨acc, rfl⟩
  | cons q rest ih =>
    intro acc
    obtain ⟨a, p⟩ := q
    obtain ⟨hn, hu⟩ := hsafe (a, p) (List.mem_cons_self _ _)
    obtain ⟨v, hv⟩ := fallbackField_ok a p hn hu
    obtain ⟨out, hout⟩ :=
      ih (fun q hq => hsafe q (List.mem_cons_of_mem _ hq)) (Json.objSet acc a v)
    exact ⟨out, by simp only [buildFallback, hv, hout]⟩

theorem objSet_fresh (acc : List (String × Json)) (k : String) (v : Json)
    (h : k ∉ acc.map Prod.fst) : Json.objSet acc k v = acc ++ [(k, v)] := by
  unfold Json.objSet
  rw [if_neg]
  simp only [List.any_eq_true, decide_eq_true_eq, not_exists, not_and]
  intro q hq hqk
  exact h (hqk ▸ List.mem_map_of_mem Prod.fst hq)

/-- With pairwise-fresh keys the fallback loop appends one output field
per entry, in entry order. -/
theorem buildFallback_keys (entries : List (String × Json))
    (hsafe : ∀ q ∈ entries, q.2 ≠ Json.null ∧ q.2 ≠ Json.undefined) :
    ∀ acc, (acc.map Prod.fst ++ entries.map Prod.fst).Nodup →
      ∃ out, buildFallback entries acc = .ok out ∧
        out.map Prod.fst = acc.map Prod.fst ++ entries.map Prod.fst := by
  induction entries with
  | nil => exact fun acc _ => ⟨acc, rfl, by simp⟩
  | cons q rest ih =>
    intro acc hnd
    obtain ⟨a, p⟩ := q
    obtain ⟨hn, hu⟩ := hsafe (a, p) (List.mem_cons_self _ _)
    obtain ⟨v, hv⟩ := fallbackField_ok a p hn hu
    have hparts := List.nodup_append.mp hnd
    have hfresh : a ∉ acc.map Prod.fst := fun hmem => hparts.2.2 hmem (by simp)
    have hnd' : ((acc ++ [(a, v)]).map Prod.fst ++ rest.map Prod.fst).Nodup := by
      simpa [List.append_assoc] using hnd
    obtain ⟨out, hout, hkeys⟩ :=
      ih (fun q hq => hsafe q (List.mem_cons_of_mem _ hq)) (acc ++ [(a, v)]) hnd'
    refine ⟨out, ?_, ?_⟩
    · simp only [buildFallback, hv]
      rw [objSet_fresh acc a v hfresh]
      exact hout
    · rw [hkeys]
      simp

/-- On an object schema the fallback branches on the truthiness of its
`properties` member; both branches feed `buildFallback`. -/
theorem fallbackResponse_obj (fs : List (String × Json)) :
    fallbackResponse (Json.obj fs) =
      match buildFallback
          (if Json.jsTruthy (Json.getPropD (Json.obj fs) "properties") then
            Json.jsEntries (Json.getPropD (Json.obj fs) "properties")
          else fs) [] with
      | .error e => .error e
      | .ok fields => .ok (Json.obj fields) := rfl

theorem WFDescriptor_safe {p : Json} (h : WFDescriptor p) :
    p ≠ Json.null ∧ p ≠ Json.undefined := by
  rcases h with ⟨s, rfl⟩ | ⟨ds, rfl, _⟩
  · exact ⟨fun hc => Json.noConfusion hc, fun hc => Json.noConfusion hc⟩
  · exact ⟨fun hc => Json.noConfusion hc, fun hc => Json.noConfusion hc⟩

theorem jsEntries_str_safe (s : String) :
    ∀ q ∈ Json.jsEntries (Json.str s), q.2 ≠ Json.null ∧ q.2 ≠ Json.undefined := by
  intro q hq
  simp only [Json.jsEntries, List.mem_map] at hq
  obtain ⟨x, _, hx⟩ := hq
  rw [← hx]
  exact ⟨fun hc => Json.noConfusion hc, fun hc => Json.noConfusion hc⟩

/-- Under the data model, the catch block itself never throws. -/
theorem fallbackResponse_ok (rs : Json) (h : WFResponseSchema rs) :
    ∃ v, fallbackResponse rs = .ok v := by
  rcases h with rfl | ⟨fs, rfl, hcase⟩
  · exact ⟨_, rfl⟩
  rcases hcase with hflat | ⟨props, hprops, hwf⟩
  · cases hlook : List.lookup "properties" fs with
    | none =>
      have hpv : Json.getPropD (Json.obj fs) "properties" = Json.undefined := by
        simp [Json.getPropD, hlook]
      obtain ⟨out, hout⟩ := buildFallback_ok fs (fun q hq => WFDescriptor_safe (hflat q hq)) []
      refine ⟨Json.obj out, ?_⟩
      rw [fallbackResponse_obj, hpv]
      simp [Json.jsTruthy, hout]
    | some p =>
      have hpv : Json.getPropD (Json.obj fs) "properties" = p := by
        simp [Json.getPropD, hlook]
      have hwfp : WFDescriptor p := hflat _ (lookup_mem hlook)
      rcases hwfp with ⟨s, rfl⟩ | ⟨ds, rfl, hdswf⟩
      · by_cases hse : s = ""
        · subst hse
          obtain ⟨out, hout⟩ :=
            buildFallback_ok fs (fun q hq => WFDescriptor_safe (hflat q hq)) []
          refine ⟨Json.obj out, ?_⟩
          rw [fallbackResponse_obj, hpv]
          simp [Json.jsTruthy, hout]
        · obtain ⟨out, hout⟩ :=
            buildFallback_ok (Json.jsEntries (Json.str s)) (jsEntries_str_safe s) []
          refine ⟨Json.obj out, ?_⟩
          rw [fallbackResponse_obj, hpv]
          simp [Json.jsTruthy, hse, hout]
      · have hsafe : ∀ q ∈ ds, q.2 ≠ Json.null ∧ q.2 ≠ Json.undefined := by
          intro q hq
          rcases hdswf q hq with ⟨_, s, hqs⟩ | ⟨_, xs, hqx⟩
          · rw [hqs]; exact ⟨fun hc => Json.noConfusion hc, fun hc => Json.noConfusion hc⟩
          · rw [hqx]; exact ⟨fun hc => Json.noConfusion hc, fun hc => Json.noConfusion hc⟩
        obtain ⟨out, hout⟩ := buildFallback_ok ds hsafe []
        refine ⟨Json.obj out, ?_⟩
        rw [fallbackResponse_obj, hpv]
        simp [Json.jsTruthy, Json.jsEntries, hout]
  · have hsafe : ∀ q ∈ props, q.2 ≠ Json.null ∧ q.2 ≠ Json.undefined :=
      fun q hq => WFDescriptor_safe (hwf q hq)
    obtain ⟨out, hout⟩ := buildFallback_ok props hsafe []
    refine ⟨Json.obj out, ?_⟩
    rw [fallbackResponse_obj, hprops]
    simp [Json.jsTruthy, Json.jsEntries, hout]

/-!
The claims.
-/

/-- Claim C1: for every endpoint schema (with `responseSchema` conforming
to the data model) and every input value, under any behavior of the LLM
service, `generate` returns a JSON value and never propagates an
exception to the caller. -/
theorem C1_generate_never_throws (schema : EndpointSchema) (input : Json) (llm : LLMOutcome)
    (h : WFResponseSchema schema.responseSchema) :
    ∃ v, generate schema input llm = .ok v := by
  cases htry : tryGenerate llm with
  | ok v => exact ⟨v, by simp [generate, htry]⟩
  | error e =>
    obtain ⟨v, hv⟩ := fallbackResponse_ok schema.responseSchema h
    exact ⟨v, by simp [generate, htry, hv]⟩

/-- Witness for C1 at a concrete schema and a failing LLM call. -/
theorem C1_witness :
    WFResponseSchema numSchema.responseSchema ∧
    ∃ v, generate numSchema (Json.obj []) LLMOutcome.failure = .ok v := by
  have hwf : WFResponseSchema numSchema.responseSchema := by
    refine Or.inr ⟨_, rfl, Or.inl ?_⟩
    intro q hq
    simp only [List.mem_singleton] at hq
    rw [hq]
    exact Or.inl ⟨"number", rfl⟩
  exact ⟨hwf, C1_generate_never_throws numSchema (Json.obj []) LLMOutcome.failure hwf⟩

/-- Claim C2 (counterexample): the LLM answers with the well-formed JSON
array `[\x7b"a":1\x7d]` (an array whose element is an object), but `generate`
returns the object extracted by the greedy brace match, not the parsed
array. -/
theorem C2_counterexample :
    parseJson "[\x7b\"a\":1\x7d]" = some (Json.arr [Json.obj [("a", Json.num 1 0)]]) ∧
    generate arraySchema (Json.obj [])
        (.success (Json.obj [("response", Json.str "[\x7b\"a\":1\x7d]")])) =
      .ok (Json.obj [("a", Json.num 1 0)]) ∧
    Json.obj [("a", Json.num 1 0)] ≠ Json.arr [Json.obj [("a", Json.num 1 0)]] :=
  ⟨rfl, rfl, fun hc => Json.noConfusion hc⟩

/-- Claim C2 (amended): whenever the LLM service responds successfully
with text whose trimmed form is well-formed JSON and is object-shaped
(from `\x7b` to `\x7d`), or array-shaped containing no `\x7b` character at all,
`generate` returns exactly the parsed value unchanged.  (Arrays whose
text contains `\x7b`…`\x7d` pairs — e.g. arrays of objects — are mis-extracted
by the greedy object regex, per the counterexample.) -/
theorem C2_generate_returns_parsed (schema : EndpointSchema) (input : Json)
    (s : String) (v : Json) (mid : List Char)
    (hshape : jsTrim s.toList = '\x7b' :: (mid ++ ['\x7d']) ∨
      (jsTrim s.toList = '[' :: (mid ++ [']']) ∧ '\x7b' ∉ jsTrim s.toList))
    (hparse : parseJsonList (jsTrim s.toList) = some v) :
    generate schema input (.success (Json.obj [("response", Json.str s)])) = .ok v := by
  have hex : extractCandidate (jsTrim s.toList) = some (jsTrim s.toList) := by
    rcases hshape with hobj | ⟨harr, hnb⟩
    · rw [hobj]
      unfold extractCandidate
      rw [spanMatch_full]
    · rw [harr] at hparse ⊢
      rw [harr] at hnb
      unfold extractCandidate
      rw [spanMatch_none_of_not_mem _ _ _ hnb]
      rw [spanMatch_full]
  have htry : tryGenerate (.success (Json.obj [("response", Json.str s)])) = .ok v := by
    show (match extractCandidate (jsTrim s.toList) with
          | some cand =>
            match parseJsonList cand with
            | some v => Except.ok v
            | none => Except.error ()
          | none => Except.error ()) = Except.ok v
    rw [hex]
    show (match parseJsonList (jsTrim s.toList) with
          | some v => Except.ok v
          | none => Except.error ()) = Except.ok v
    rw [hparse]
  unfold generate
  rw [htry]

/-- Witness for C2 (amended) at a concrete object-shaped response. -/
theorem C2_witness :
    generate numSchema (Json.obj [])
        (.success (Json.obj [("response", Json.str " \x7b\"x\":1\x7d ")])) =
      .ok (Json.obj [("x", Json.num 1 0)]) :=
  C2_generate_returns_parsed numSchema (Json.obj []) " \x7b\"x\":1\x7d "
    (Json.obj [("x", Json.num 1 0)]) "\"x\":1".toList (Or.inl (by rfl)) (by rfl)

/-- Claim C3: there is LLM text holding one well-formed JSON object
followed by explanatory text with a later closing brace, for which the
greedy first-`\x7b`-to-last-`\x7d` candidate fails to parse, so `generate`
falls back to the schema-derived value instead of the embedded object. -/
theorem C3_greedy_misextraction :
    parseJson "\x7b\"x\":1\x7d" = some (Json.obj [("x", Json.num 1 0)]) ∧
    extractCandidate (jsTrim "\x7b\"x\":1\x7d matches the schema \x7b...\x7d".toList) =
      some "\x7b\"x\":1\x7d matches the schema \x7b...\x7d".toList ∧
    parseJsonList "\x7b\"x\":1\x7d matches the schema \x7b...\x7d".toList = none ∧
    fallbackResponse numSchema.responseSchema = .ok (Json.obj [("x", Json.num 123 0)]) ∧
    generate numSchema (Json.obj [])
        (.success (Json.obj
          [("response", Json.str "\x7b\"x\":1\x7d matches the schema \x7b...\x7d")])) =
      .ok (Json.obj [("x", Json.num 123 0)]) :=
  ⟨rfl, rfl, rfl, rfl, rfl⟩

/-- Claim C4: for the schema `\x7b a: "string", b: "number",
c: \x7benum: ["X","Y"]\x7d \x7d`, every failing generation returns exactly
`\x7b a: "sample_a", b: 123, c: "X" \x7d`. -/
theorem C4_fallback_example (input : Json) (llm : LLMOutcome)
    (hfail : tryGenerate llm = .error ()) :
    generate schemaC4 input llm =
      .ok (Json.obj
        [("a", Json.str "sample_a"), ("b", Json.num 123 0), ("c", Json.str "X")]) := by
  unfold generate
  rw [hfail]
  rfl

/-- Witness for C4 at a failing LLM call. -/
theorem C4_witness :
    tryGenerate LLMOutcome.failure = .error () ∧
    generate schemaC4 (Json.obj []) LLMOutcome.failure =
      .ok (Json.obj
        [("a", Json.str "sample_a"), ("b", Json.num 123 0), ("c", Json.str "X")]) :=
  ⟨rfl, C4_fallback_example (Json.obj []) LLMOutcome.failure rfl⟩

/-- Claim C5 (counterexample): when the `properties` mapping itself holds
a field named `properties`, the fallback output does contain a field
named `properties`, contradicting the claim's universal "no `properties`
field in the output". -/
theorem C5_counterexample :
    generate schemaPropsDegenerate (Json.obj []) LLMOutcome.failure =
      .ok (Json.obj [("properties", Json.str "sample_properties")]) := rfl

/-- Claim C5 (amended): for every schema whose `responseSchema` holds a
`properties` mapping (with pairwise distinct, non-null descriptors), the
fallback field set is exactly the entries of `properties` — in order —
and not the wrapper object's own keys; in particular no `properties`
field appears unless the `properties` mapping itself has one. -/
theorem C5_fallback_from_properties (schema : EndpointSchema) (input : Json) (llm : LLMOutcome)
    (fs props : List (String × Json))
    (hrs : schema.responseSchema = Json.obj fs)
    (hprops : List.lookup "properties" fs = some (Json.obj props))
    (hkeys : (props.map Prod.fst).Nodup)
    (hsafe : ∀ q ∈ props, q.2 ≠ Json.null ∧ q.2 ≠ Json.undefined)
    (hfail : tryGenerate llm = .error ()) :
    ∃ out, generate schema input llm = .ok (Json.obj out) ∧
      out.map Prod.fst = props.map Prod.fst := by
  obtain ⟨out, hout, hkeys'⟩ := buildFallback_keys props hsafe [] (by simpa using hkeys)
  refine ⟨out, ?_, by simpa using hkeys'⟩
  unfold generate
  rw [hfail, hrs, fallbackResponse_obj]
  have hpv : Json.getPropD (Json.obj fs) "properties" = Json.obj props := by
    simp [Json.getPropD, hprops]
  rw [hpv]
  simp [Json.jsTruthy, Json.jsEntries, hout]

/-- Witness for C5 (amended) at the `\x7bproperties: \x7bid: "number"\x7d\x7d`
schema of the spec's example. -/
theorem C5_witness :
    ∃ out, generate schemaProps (Json.obj []) LLMOutcome.failure = .ok (Json.obj out) ∧
      out.map Prod.fst = [("id", Json.str "number")].map Prod.fst :=
  C5_fallback_from_properties schemaProps (Json.obj []) LLMOutcome.failure
    [("properties", Json.obj [("id", Json.str "number")])] [("id", Json.str "number")]
    rfl rfl (by simp)
    (by
      intro q hq
      simp only [List.mem_singleton] at hq
      rw [hq]
      exact ⟨fun hc => Json.noConfusion hc, fun hc => Json.noConfusion hc⟩)
    rfl

/-- Claim C6: for every schema with no `responseSchema` field, every
failing generation returns exactly the single-field error object. -/
theorem C6_no_schema_error (schema : EndpointSchema) (input : Json) (llm : LLMOutcome)
    (habs : schema.responseSchema = Json.undefined) (hfail : tryGenerate llm = .error ()) :
    generate schema input llm =
      .ok (Json.obj [("error", Json.str "Failed to generate mock response from LLM.")]) := by
  unfold generate
  rw [hfail, habs]
  rfl

/-- Witness for C6 at a concrete schema without `responseSchema`. -/
theorem C6_witness :
    schemaNoResponse.responseSchema = Json.undefined ∧
    generate schemaNoResponse (Json.obj []) LLMOutcome.failure =
      .ok (Json.obj [("error", Json.str "Failed to generate mock response from LLM.")]) :=
  ⟨rfl, C6_no_schema_error schemaNoResponse (Json.obj []) LLMOutcome.failure rfl rfl⟩

/-- Claim C7: for the LLM text `Sure! Here is the JSON: \x7b"x":1\x7d`,
strategy (a) extracts the candidate `\x7b"x":1\x7d` and `generate` returns
the parsed object. -/
theorem C7_prefixed_object_extraction :
    extractCandidate (jsTrim "Sure! Here is the JSON: \x7b\"x\":1\x7d".toList) =
      some "\x7b\"x\":1\x7d".toList ∧
    generate numSchema (Json.obj [])
        (.success (Json.obj
          [("response", Json.str "Sure! Here is the JSON: \x7b\"x\":1\x7d")])) =
      .ok (Json.obj [("x", Json.num 1 0)]) :=
  ⟨rfl, rfl⟩

/-- Claim C8: for the bare-array LLM text `[1,2,3]` with no braces,
strategy (a) finds nothing, strategy (b) extracts the whole array text,
and `generate` returns the parsed array. -/
theorem C8_bare_array_extraction :
    spanMatch '\x7b' '\x7d' "[1,2,3]".toList = none ∧
    extractCandidate (jsTrim "[1,2,3]".toList) = some "[1,2,3]".toList ∧
    generate numSchema (Json.obj [])
        (.success (Json.obj [("response", Json.str "[1,2,3]")])) =
      .ok (Json.arr [Json.num 1 0, Json.num 2 0, Json.num 3 0]) :=
  ⟨rfl, rfl, rfl⟩

/-- Claim C9: for a fixed schema the fallback path is deterministic and
independent of the failure cause and of the input: any two failing
invocations return equal values. -/
theorem C9_fallback_deterministic (schema : EndpointSchema) (i1 i2 : Json)
    (l1 l2 : LLMOutcome) (h1 : tryGenerate l1 = .error ()) (h2 : tryGenerate l2 = .error ()) :
    generate schema i1 l1 = generate schema i2 l2 := by
  unfold generate
  rw [h1, h2]

/-- Witness for C9 across the three failure causes: request failure, no
JSON-shaped substring, and parse failure of the extracted candidate. -/
theorem C9_witness :
    (tryGenerate LLMOutcome.failure = .error () ∧
      tryGenerate (.success (Json.obj [("response", Json.str "nothing here")])) = .error () ∧
      tryGenerate (.success (Json.obj [("response", Json.str "\x7bnot json\x7d")])) =
        .error ()) ∧
    generate schemaC4 (Json.obj []) LLMOutcome.failure =
      generate schemaC4 (Json.arr [])
        (.success (Json.obj [("response", Json.str "nothing here")])) ∧
    generate schemaC4 (Json.obj [])
        (.success (Json.obj [("response", Json.str "\x7bnot json\x7d")])) =
      generate schemaC4 (Json.obj []) LLMOutcome.failure :=
  ⟨⟨rfl, rfl, rfl⟩,
    C9_fallback_deterministic schemaC4 (Json.obj []) (Json.arr []) LLMOutcome.failure
      (.success (Json.obj [("response", Json.str "nothing here")])) rfl rfl,
    C9_fallback_deterministic schemaC4 (Json.obj []) (Json.obj [])
      (.success (Json.obj [("response", Json.str "\x7bnot json\x7d")])) LLMOutcome.failure
      rfl rfl⟩

/-- Claim C10: a POST /schemas body missing `endpoint`, `method` or
`responseSchema` (or an absent body) gets status 400 with
`\x7berror: "Invalid schema format"\x7d`, and the server state is unchanged:
no file written, no schemas-map entry, no route registered. -/
theorem C10_post_schemas_400 (body : Json) (now : Nat) (st : ServerState)
    (h : body = Json.undefined ∨ Json.getPropD body "endpoint" = Json.undefined ∨
      Json.getPropD body "method" = Json.undefined ∨
      Json.getPropD body "responseSchema" = Json.undefined) :
    postSchemas body now st =
      ((400, Json.obj [("error", Json.str "Invalid schema format")]), st) := by
  rcases h with rfl | h | h | h
  · simp [postSchemas, Json.jsTruthy]
  all_goals simp [postSchemas, h, Json.jsTruthy]

/-- Witness for C10: a body with `endpoint` and `method` but no
`responseSchema` leaves a concrete state untouched. -/
theorem C10_witness :
    Json.getPropD (Json.obj [("endpoint", Json.str "/a"), ("method", Json.str "GET")])
        "responseSchema" = Json.undefined ∧
    postSchemas (Json.obj [("endpoint", Json.str "/a"), ("method", Json.str "GET")]) 0
        ⟨[], [], []⟩ =
      ((400, Json.obj [("error", Json.str "Invalid schema format")]), ⟨[], [], []⟩) :=
  ⟨rfl,
    C10_post_schemas_400 (Json.obj [("endpoint", Json.str "/a"), ("method", Json.str "GET")])
      0 ⟨[], [], []⟩ (Or.inr (Or.inr (Or.inr rfl)))⟩
